import Mathlib

/-!
Verification of the sagemaker-hyperpod-cli job-command specification.

The development shallowly embeds:
* `CancelTrainingJob.cancel_training_job` from
  `src/hyperpod_cli/service/cancel_training_job.py` (source present), and
* the job-submission resolver pipeline of `hyperpod_cli/commands/job.py`,
  whose implementation is not in the repository snapshot (only its unit
  tests are); those parts are modelled from the specification.

Python dictionaries are modelled as association lists, Python JSON values
as the inductive `JsonValue`, exceptions as explicit result constructors,
and side effects (subprocess calls, file I/O) as explicit event traces.
-/

set_option autoImplicit false

/-- A JSON-like Python value: the payloads moving through the CLI
(label selectors, parsed config files, Kubernetes API responses). -/
inductive JsonValue where
  | str (s : String)
  | num (n : Int)
  | bool (b : Bool)
  | null
  | arr (elems : List JsonValue)
  | obj (fields : List (String × JsonValue))

/-- Python truthiness of a `JsonValue` (`if value:`): empty string, zero,
`False`, `None`, and empty containers are falsy. -/
def JsonValue.truthy : JsonValue → Bool
  | .str s => !(s == "")
  | .num n => !(n == 0)
  | .bool b => b
  | .null => false
  | .arr elems => !elems.isEmpty
  | .obj fields => !fields.isEmpty

/-- Python equality of a `JsonValue` against a string literal
(`value == "..."`): only an equal string compares equal. -/
def JsonValue.pyEqStr (v : JsonValue) (s : String) : Bool :=
  match v with
  | .str t => t == s
  | _ => false

/-- A Python dict, as the CLI receives one from the Kubernetes client:
an association list, `d.get(k)` being the first binding of `k`. -/
def dictGet (kvs : List (String × JsonValue)) (k : String) : Option JsonValue :=
  (kvs.find? (fun p => p.1 == k)).map (fun p => p.2)

/-- `kubernetes.client.rest.ApiException`: the fields the cancel service
reads (`e.reason`, `e.status`). -/
structure ApiException where
  reason : String
  status : Int

/-- Resolution of the namespace argument, from
`cancel_training_job.py`: `if not namespace: namespace =
k8s_client.get_current_context_namespace()`.  Returns the namespace used
and whether `get_current_context_namespace` was consulted (a `None` or
empty-string argument is falsy in Python). -/
def resolve_namespace (ns : Option String) (current_context_namespace : String) :
    String × Bool :=
  match ns with
  | none => (current_context_namespace, true)
  | some s => if s == "" then (current_context_namespace, true) else (s, false)

/-- `helm_chart_cleanup_command` from `cancel_training_job.py`:
`["helm", "uninstall", job_name, "--namespace", namespace]`. -/
def helm_chart_cleanup_command (job_name ns : String) : List String :=
  ["helm", "uninstall", job_name, "--namespace", ns]

/-- What `cancel_training_job` does on return: either it raised a
`RuntimeError` with the given message, or it returned a value
(`None` or the delete-result dict). -/
inductive CancelReturn where
  | runtimeError (msg : String)
  | value (r : Option (List (String × JsonValue)))

/-- One run of `CancelTrainingJob.cancel_training_job`: the return/raise
outcome, the namespace passed to `delete_training_job`, whether
`get_current_context_namespace` was consulted, and the subprocess
commands run (in order). -/
structure CancelRun where
  ret : CancelReturn
  deleteNamespace : String
  consultedContext : Bool
  subprocessCommands : List (List String)

/-- Shallow embedding of `CancelTrainingJob.cancel_training_job`
(`src/hyperpod_cli/service/cancel_training_job.py`): resolve the
namespace, call `delete_training_job` (modelled as an explicit
`Except`-valued collaborator), turn an `ApiException` into a
`RuntimeError` with message `Unexpected API error: <reason> (<status>)`,
and on a result whose `"status"` entry is truthy and equals `"Success"`
run the helm cleanup subprocess and return `None`; otherwise return the
result unchanged. -/
def cancel_training_job (job_name : String) (ns : Option String)
    (current_context_namespace : String)
    (delete_training_job : String → String → Except ApiException (List (String × JsonValue))) :
    CancelRun :=
  let resolved := resolve_namespace ns current_context_namespace
  match delete_training_job job_name resolved.1 with
  | .error e =>
    { ret := .runtimeError
        ("Unexpected API error: " ++ e.reason ++ " (" ++ toString e.status ++ ")")
      deleteNamespace := resolved.1
      consultedContext := resolved.2
      subprocessCommands := [] }
  | .ok result =>
    if (match dictGet result "status" with
        | some v => v.truthy && v.pyEqStr "Success"
        | none => false) then
      { ret := .value none
        deleteNamespace := resolved.1
        consultedContext := resolved.2
        subprocessCommands := [helm_chart_cleanup_command job_name resolved.1] }
    else
      { ret := .value (some result)
        deleteNamespace := resolved.1
        consultedContext := resolved.2
        subprocessCommands := [] }

example :
    (cancel_training_job "job-a" none "kubeflow"
      (fun _ _ => .ok [("status", JsonValue.str "Success")])).ret
      = CancelReturn.value none := rfl

example :
    (cancel_training_job "job-a" (some "ns1") "kubeflow"
      (fun _ _ => .ok [("status", JsonValue.str "Pending")])).deleteNamespace = "ns1" := rfl

/-! ## The job-submission resolver (`hyperpod_cli/commands/job.py`)

The implementation file is absent from the snapshot (only its unit tests
are present), so the pipeline below is modelled from the specification,
keeping the shapes the tests exercise. -/

/-- Provenance of a click parameter value: `click.core.ParameterSource`,
collapsed to the distinction the conflict check makes (supplied on the
command line versus anything else). -/
inductive ParamSource where
  | commandline
  | defaulted
deriving DecidableEq

/-- Modelled from the spec: `validate_only_config_file_argument` of
`hyperpod_cli/commands/job.py` is absent from the snapshot.  Spec §4.1:
if a config-file path is present, no other job-definition flag whose
source is the command line may also be present; the first conflicting
flag is reported through a `click.BadParameter` (here `.error flag`).
The context is modelled as its `ctx.params` keys paired with each
parameter result of `ctx.get_parameter_source`. -/
def validate_only_config_file_argument (params : List (String × ParamSource)) :
    Except String Unit :=
  if params.any (fun p => p.1 == "config_file") then
    match params.find? (fun p => !(p.1 == "config_file") && p.2 == ParamSource.commandline) with
    | some p => .error p.1
    | none => .ok ()
  else .ok ()

/-- Whether a JSON value is a scalar in the label-selector sense
(spec §3: string/number/bool, never nested objects or arrays). -/
def is_scalar_value : JsonValue → Bool
  | .obj _ => false
  | .arr _ => false
  | _ => true

/-- Modelled from the spec: the label-selector validation of the absent
`hyperpod_cli/commands/job.py` / `JobValidator`.  The argument is the
result of JSON-parsing the `--label-selector` string (`none` when the
string is not valid JSON); it is accepted exactly when it parsed to a
JSON object all of whose values are scalar. -/
def validate_label_selector : Option JsonValue → Bool
  | some (.obj fields) => fields.all (fun f => is_scalar_value f.2)
  | _ => false

/-- Modelled from the spec: `queue_name` and `priority` are co-dependent,
both present or both absent (spec §3 invariants). -/
def kueue_pair_valid (queue_name priority : Option String) : Bool :=
  match queue_name, priority with
  | some _, none => false
  | none, some _ => false
  | _, _ => true

/-- Split a character list on a separator character; the pure analogue of
Python `str.split(sep)` for a one-character separator (always at least
one component, empty components preserved). -/
def split_chars (sep : Char) : List Char → List (List Char)
  | [] => [[]]
  | c :: cs =>
    let rest := split_chars sep cs
    if c == sep then [] :: rest
    else
      match rest with
      | [] => [[c]]
      | r :: rs => (c :: r) :: rs

/-- Modelled from the spec: one entry of `--persistent-volume-claims`
must split on `:` into exactly two non-empty components,
claim name and mount path (spec §4.1). -/
def parse_pvc_entry (entry : List Char) : Option (String × String) :=
  match split_chars ':' entry with
  | [n, p] => if n.isEmpty || p.isEmpty then none else some (String.mk n, String.mk p)
  | _ => none

/-- Parse every comma-separated entry, failing when any entry does. -/
def parse_pvc_entries : List (List Char) → Option (List (String × String))
  | [] => some []
  | e :: es =>
    match parse_pvc_entry e with
    | none => none
    | some b =>
      match parse_pvc_entries es with
      | none => none
      | some bs => some (b :: bs)

/-- Modelled from the spec: the `--persistent-volume-claims` resolver of
the absent `hyperpod_cli/commands/job.py`: split the flag value on `,`,
then each entry on `:` into exactly two non-empty components, preserving
order. -/
def parse_persistent_volume_claims (s : String) : Option (List (String × String)) :=
  parse_pvc_entries (split_chars ',' s.data)

/-- Whether a path is absolute (`os.path.isabs` on POSIX): it starts
with a slash. -/
def is_absolute (p : String) : Bool :=
  match p.data with
  | '/' :: _ => true
  | _ => false

/-- Modelled from the spec: resolution of a config-file path against the
fixed base directory when relative (spec §4.1 resolution path 1). -/
def resolve_config_path (base_dir path : String) : String :=
  if is_absolute path then path else base_dir ++ "/" ++ path

/-- Modelled from the spec: the top-level shape check of a parsed config
file — it must be a mapping with a `cluster` key (spec §4.1); the
argument is `none` when the file did not parse. -/
def has_cluster_key : Option JsonValue → Bool
  | some (.obj fields) => fields.any (fun f => f.1 == "cluster")
  | _ => false

/-- The distinguishable error classes of the submission pipeline
(spec §7 taxonomy, refined by detection point). -/
inductive SubmitError where
  | badParam (flag : String)
  | configNotFound (path : String)
  | templateValidation
  | labelSelector
  | kueuePair
  | pvcFormat
  | invalidArgs
  | credentials
  | applyFailure (msg : String)
deriving DecidableEq

/-- Observable side effects of one submission run, in order. -/
inductive Event where
  | file_read (path : String)
  | temp_write
  | apply_call
  | temp_remove
  | log_remove_failure
deriving DecidableEq

/-- Everything one `start_job` invocation depends on: flag values with
provenance, collaborator answers, and the filesystem.  `label_selector`
is `none` when the flag is absent, `some parsed` with `parsed` the
JSON-parse result otherwise; `config_parse` is the parse of the config
file when read; `existing_paths` are the paths `os.path.exists` affirms;
`apply_raises` is `some msg` when the external launcher raises;
`remove_raises` is true when removing the temporary file raises. -/
structure StartJobInputs where
  params : List (String × ParamSource)
  config_file : Option String
  base_dir : String
  existing_paths : List String
  config_parse : Option JsonValue
  label_selector : Option (Option JsonValue)
  queue_name : Option String
  priority : Option String
  persistent_volume_claims : Option String
  valid_args : Bool
  valid_credentials : Bool
  apply_raises : Option String
  remove_raises : Bool

/-- The observable outcome of one `start_job` invocation. -/
structure StartJobRun where
  exit_code : Nat
  err : Option SubmitError
  events : List Event
  temp_file_exists : Bool
deriving DecidableEq

/-- Modelled from the spec: the shared tail of both resolution paths —
credential validation before templating, then render to a temporary
file, the external apply step, and guaranteed removal of the temporary
file with a logged (non-masking) removal failure
(spec §4.1 render/apply, §5). -/
def submit_common (i : StartJobInputs) (ev : List Event) : StartJobRun :=
  if !i.valid_credentials then
    { exit_code := 1, err := some .credentials, events := ev, temp_file_exists := false }
  else
    let ev1 := ev ++ [Event.temp_write, Event.apply_call, Event.temp_remove]
    let code := match i.apply_raises with | some _ => 1 | none => 0
    let er : Option SubmitError :=
      match i.apply_raises with | some m => some (.applyFailure m) | none => none
    if i.remove_raises then
      { exit_code := code, err := er
        events := ev1 ++ [Event.log_remove_failure], temp_file_exists := true }
    else
      { exit_code := code, err := er, events := ev1, temp_file_exists := false }

/-- Modelled from the spec: the `start_job` resolver pipeline of the
absent `hyperpod_cli/commands/job.py` (spec §4.1): mutual-exclusivity
check first (usage error, exit 2), then either the config-file path
(existence, then parse and shape) or the CLI-flags path (label selector,
queue/priority pairing, persistent-volume-claims format, remaining flag
validation), each failing with exit 1 before any further I/O, then the
shared credential/render/apply/cleanup tail. -/
def start_job (i : StartJobInputs) : StartJobRun :=
  match validate_only_config_file_argument i.params with
  | .error flag =>
    { exit_code := 2, err := some (.badParam flag), events := [], temp_file_exists := false }
  | .ok _ =>
    match i.config_file with
    | some path =>
      let resolved := resolve_config_path i.base_dir path
      if !(i.existing_paths.contains resolved) then
        { exit_code := 1, err := some (.configNotFound resolved)
          events := [], temp_file_exists := false }
      else if !(has_cluster_key i.config_parse) then
        { exit_code := 1, err := some .templateValidation
          events := [Event.file_read resolved], temp_file_exists := false }
      else
        submit_common i [Event.file_read resolved]
    | none =>
      if (match i.label_selector with
          | some parsed => !(validate_label_selector parsed)
          | none => false) then
        { exit_code := 1, err := some .labelSelector, events := [], temp_file_exists := false }
      else if !(kueue_pair_valid i.queue_name i.priority) then
        { exit_code := 1, err := some .kueuePair, events := [], temp_file_exists := false }
      else if (match i.persistent_volume_claims with
          | some s => (parse_persistent_volume_claims s).isNone
          | none => false) then
        { exit_code := 1, err := some .pvcFormat, events := [], temp_file_exists := false }
      else if !i.valid_args then
        { exit_code := 1, err := some .invalidArgs, events := [], temp_file_exists := false }
      else
        submit_common i []

/-- The five commands of the CLI surface. -/
inductive CliCommand where
  | start_job_cmd
  | get_job
  | list_jobs
  | list_pods
  | cancel_job

/-- The action phrase each command boundary handler interpolates after
the stable error heading (the phrases the unit tests assert). -/
def command_action_phrase : CliCommand → String
  | .start_job_cmd => "start training job"
  | .get_job => "get training job"
  | .list_jobs => "list training job"
  | .list_pods => "list pods for training job"
  | .cancel_job => "cancel training job"

/-- Outcome classes at a command boundary: a CLI usage error (missing
required option, unknown option, conflicting options), an exception
raised by the service layer, a validation-class failure already
formatted, or success with output. -/
inductive CmdOutcome where
  | usageError (msg : String)
  | serviceRaise (msg : String)
  | failure (msg : String)
  | success (output : String)

/-- Modelled from the spec: the uniform command-boundary handler shared
by the five commands (spec §6 exit codes, §7 propagation policy): usage
errors exit 2, every validation/credential/apply failure exits 1, a
service-layer exception is caught and reported with the stable prefix,
success exits 0. -/
def run_cli_command (cmd : CliCommand) (outcome : CmdOutcome) : Nat × String :=
  match outcome with
  | .usageError m => (2, m)
  | .serviceRaise m =>
    (1, "Unexpected error happens when trying to " ++ command_action_phrase cmd ++ ": " ++ m)
  | .failure m => (1, m)
  | .success out => (0, out)

/-- The flag provenance of the reference invocation of the unit tests:
five job-definition flags supplied on the command line, no config file. -/
def sample_flag_params : List (String × ParamSource) :=
  [("job_name", ParamSource.commandline), ("instance_type", ParamSource.commandline),
   ("image", ParamSource.commandline), ("node_count", ParamSource.commandline),
   ("entry_script", ParamSource.commandline)]

/-- A fully valid CLI-flags invocation (the round-trip invocation of the
unit tests), with all collaborators succeeding. -/
def sample_cli_inputs : StartJobInputs where
  params := sample_flag_params
  config_file := none
  base_dir := "/opt/hyperpod"
  existing_paths := ["/absolute/path/to/file.yaml"]
  config_parse := some (.obj [("cluster", .obj [("cluster_type", .str "k8s")])])
  label_selector := none
  queue_name := none
  priority := none
  persistent_volume_claims := none
  valid_args := true
  valid_credentials := true
  apply_raises := none
  remove_raises := false

example :
    parse_persistent_volume_claims "claim1:test1,claim2:test2"
      = some [("claim1", "test1"), ("claim2", "test2")] := by decide

example : parse_persistent_volume_claims "claim1:test1,claim2" = none := by decide

example : (start_job sample_cli_inputs).exit_code = 0 := by decide

/-! ## Theorems -/

/-- The guard `result.get("status") and result.get("status") == "Success"`
holds exactly when the dict binds `"status"` to the string `"Success"`. -/
theorem status_cond_iff (o : Option JsonValue) :
    (match o with
      | some v => v.truthy && v.pyEqStr "Success"
      | none => false) = true ↔ o = some (JsonValue.str "Success") := by
  cases o with
  | none => simp
  | some v =>
    cases v <;> simp [JsonValue.truthy, JsonValue.pyEqStr]
    case str s =>
      rintro rfl
      decide

/-- Claim C8: a job operation invoked without an explicit namespace
(absent or empty) uses exactly `get_current_context_namespace()` for the
cluster call; a non-empty supplied namespace is used unchanged and the
context is not consulted — shown for the namespace resolution step and
for `cancel_training_job`, the job operation whose implementation is in
the snapshot. -/
theorem claim_C8_namespace_resolution :
    (∀ (ns : Option String) (ctx : String), (ns = none ∨ ns = some "") →
      resolve_namespace ns ctx = (ctx, true))
    ∧ (∀ (s ctx : String), s ≠ "" → resolve_namespace (some s) ctx = (s, false))
    ∧ (∀ (job : String) (ns : Option String) (ctx : String)
        (delete : String → String → Except ApiException (List (String × JsonValue))),
        (cancel_training_job job ns ctx delete).deleteNamespace = (resolve_namespace ns ctx).1
        ∧ (cancel_training_job job ns ctx delete).consultedContext = (resolve_namespace ns ctx).2) := by
  refine ⟨?_, ?_, ?_⟩
  · rintro ns ctx (rfl | rfl) <;> simp [resolve_namespace]
  · intro s ctx h
    simp [resolve_namespace, h]
  · intro job ns ctx delete
    unfold cancel_training_job
    cases h : delete job (resolve_namespace ns ctx).1 with
    | error e => simp [h]
    | ok result =>
      simp only [h]
      split <;> exact ⟨rfl, rfl⟩

/-- Witness for C8 at concrete inputs: an absent and an empty namespace
resolve to the context namespace with the context consulted; a supplied
non-empty namespace is used unchanged by `cancel_training_job`. -/
theorem claim_C8_namespace_resolution_witness :
    resolve_namespace none "kubeflow" = ("kubeflow", true)
    ∧ resolve_namespace (some "") "kubeflow" = ("kubeflow", true)
    ∧ resolve_namespace (some "ns1") "kubeflow" = ("ns1", false)
    ∧ (cancel_training_job "job-a" (some "ns1") "kubeflow"
        (fun _ _ => .ok [])).deleteNamespace = "ns1" :=
  ⟨claim_C8_namespace_resolution.1 none "kubeflow" (Or.inl rfl),
   claim_C8_namespace_resolution.1 (some "") "kubeflow" (Or.inr rfl),
   claim_C8_namespace_resolution.2.1 "ns1" "kubeflow" (by decide),
   (claim_C8_namespace_resolution.2.2 "job-a" (some "ns1") "kubeflow"
      (fun _ _ => .ok [])).1.trans (by decide)⟩

/-- Claim C9: on a successful delete call, `cancel_training_job` returns
`None` exactly when the result binds `"status"` to `"Success"` (running
the helm uninstall for that job and namespace first); any other result
is returned unchanged with no helm uninstall attempted. -/
theorem claim_C9_cancel_success_branch :
    ∀ (job : String) (ns : Option String) (ctx : String)
      (delete : String → String → Except ApiException (List (String × JsonValue)))
      (result : List (String × JsonValue)),
      delete job (resolve_namespace ns ctx).1 = .ok result →
      ((cancel_training_job job ns ctx delete).ret = CancelReturn.value none
          ↔ dictGet result "status" = some (JsonValue.str "Success"))
      ∧ (dictGet result "status" = some (JsonValue.str "Success") →
          (cancel_training_job job ns ctx delete).subprocessCommands
            = [helm_chart_cleanup_command job (resolve_namespace ns ctx).1])
      ∧ (dictGet result "status" ≠ some (JsonValue.str "Success") →
          (cancel_training_job job ns ctx delete).ret = CancelReturn.value (some result)
          ∧ (cancel_training_job job ns ctx delete).subprocessCommands = []) := by
  intro job ns ctx delete result h
  unfold cancel_training_job
  simp only [h]
  by_cases hs : dictGet result "status" = some (JsonValue.str "Success")
  · rw [if_pos ((status_cond_iff _).mpr hs)]
    exact ⟨by simp [hs], fun _ => rfl, fun hns => absurd hs hns⟩
  · rw [if_neg (fun hc => hs ((status_cond_iff _).mp hc))]
    exact ⟨by simp [hs], fun hy => absurd hy hs, fun _ => ⟨rfl, rfl⟩⟩

/-- Witness for C9 at concrete inputs: a `Success` result yields `None`
plus the helm uninstall command; a `Pending` result is returned
unchanged with no subprocess. -/
theorem claim_C9_cancel_success_branch_witness :
    ((cancel_training_job "job-a" (some "ns1") "kubeflow"
        (fun _ _ => .ok [("status", JsonValue.str "Success")])).ret = CancelReturn.value none
      ∧ (cancel_training_job "job-a" (some "ns1") "kubeflow"
          (fun _ _ => .ok [("status", JsonValue.str "Success")])).subprocessCommands
        = [["helm", "uninstall", "job-a", "--namespace", "ns1"]])
    ∧ ((cancel_training_job "job-a" (some "ns1") "kubeflow"
        (fun _ _ => .ok [("status", JsonValue.str "Pending")])).ret
          = CancelReturn.value (some [("status", JsonValue.str "Pending")])
      ∧ (cancel_training_job "job-a" (some "ns1") "kubeflow"
          (fun _ _ => .ok [("status", JsonValue.str "Pending")])).subprocessCommands = []) := by
  constructor
  · have h := claim_C9_cancel_success_branch "job-a" (some "ns1") "kubeflow"
      (fun _ _ => .ok [("status", JsonValue.str "Success")])
      [("status", JsonValue.str "Success")] rfl
    exact ⟨(h.1).mpr rfl, (h.2.1 rfl).trans rfl⟩
  · have h := claim_C9_cancel_success_branch "job-a" (some "ns1") "kubeflow"
      (fun _ _ => .ok [("status", JsonValue.str "Pending")])
      [("status", JsonValue.str "Pending")] rfl
    exact h.2.2 (by simp [dictGet])

/-- Claim C10: when the delete call raises an `ApiException`, the method
raises a `RuntimeError` whose message is exactly
`Unexpected API error: <reason> (<status>)` and runs no subprocess. -/
theorem claim_C10_cancel_api_exception :
    ∀ (job : String) (ns : Option String) (ctx : String)
      (delete : String → String → Except ApiException (List (String × JsonValue)))
      (e : ApiException),
      delete job (resolve_namespace ns ctx).1 = .error e →
      cancel_training_job job ns ctx delete =
        { ret := .runtimeError
            ("Unexpected API error: " ++ e.reason ++ " (" ++ toString e.status ++ ")")
          deleteNamespace := (resolve_namespace ns ctx).1
          consultedContext := (resolve_namespace ns ctx).2
          subprocessCommands := [] } := by
  intro job ns ctx delete e h
  unfold cancel_training_job
  simp only [h]

/-- Witness for C10 at a concrete input: an `ApiException` with reason
`Forbidden` and status 403 becomes the exact `RuntimeError` message, and
no subprocess runs. -/
theorem claim_C10_cancel_api_exception_witness :
    cancel_training_job "job-a" (some "ns1") "kubeflow"
        (fun _ _ => .error ⟨"Forbidden", 403⟩) =
      { ret := .runtimeError "Unexpected API error: Forbidden (403)"
        deleteNamespace := "ns1"
        consultedContext := false
        subprocessCommands := [] } := by
  have h := claim_C10_cancel_api_exception "job-a" (some "ns1") "kubeflow"
    (fun _ _ => .error ⟨"Forbidden", 403⟩) ⟨"Forbidden", 403⟩ rfl
  rw [h]
  rfl

/-- A character list with `isEmpty = false` does not pack to the empty
string. -/
theorem mk_ne_empty_of_isEmpty_false (n : List Char) (h : n.isEmpty = false) :
    String.mk n ≠ "" := by
  intro hs
  rw [show ("" : String) = String.mk [] from rfl] at hs
  injection hs with h2
  subst h2
  simp [List.isEmpty] at h

/-- Inversion for one persistent-volume-claim entry: a successful parse
means the entry split on `:` into exactly the two non-empty components
of the binding. -/
theorem parse_pvc_entry_some (e : List Char) (b : String × String)
    (h : parse_pvc_entry e = some b) :
    split_chars ':' e = [b.1.data, b.2.data] ∧ b.1 ≠ "" ∧ b.2 ≠ "" := by
  unfold parse_pvc_entry at h
  split at h
  case h_1 n p heq =>
    split at h
    · exact absurd h (by simp)
    case isFalse hne =>
      injection h with hb
      subst hb
      rw [heq]
      have hnp : n.isEmpty = false ∧ p.isEmpty = false := by
        constructor <;> by_contra hc <;> simp at hc <;> simp [hc] at hne
      exact ⟨rfl, mk_ne_empty_of_isEmpty_false n hnp.1, mk_ne_empty_of_isEmpty_false p hnp.2⟩
  case h_2 =>
    exact absurd h (by simp)

/-- A successful parse of the entry list yields one binding per entry,
in order. -/
theorem parse_pvc_entries_spec (es : List (List Char)) (l : List (String × String))
    (h : parse_pvc_entries es = some l) :
    l.length = es.length ∧ ∀ pr ∈ es.zip l, parse_pvc_entry pr.1 = some pr.2 := by
  induction es generalizing l with
  | nil =>
    unfold parse_pvc_entries at h
    injection h with h2
    subst h2
    simp
  | cons e es ih =>
    unfold parse_pvc_entries at h
    cases hpe : parse_pvc_entry e with
    | none => rw [hpe] at h; exact absurd h (by simp)
    | some b =>
      rw [hpe] at h
      cases hrest : parse_pvc_entries es with
      | none => rw [hrest] at h; exact absurd h (by simp)
      | some bs =>
        rw [hrest] at h
        injection h with h2
        subst h2
        obtain ⟨hlen, hmem⟩ := ih bs hrest
        refine ⟨by simp [hlen], ?_⟩
        intro pr hpr
        rcases List.mem_cons.mp hpr with hhd | htl
        · subst hhd; exact hpe
        · exact hmem pr htl

/-- A malformed entry anywhere makes the whole entry-list parse fail. -/
theorem parse_pvc_entries_none (es : List (List Char)) (e : List Char)
    (hmem : e ∈ es) (hbad : parse_pvc_entry e = none) :
    parse_pvc_entries es = none := by
  induction es with
  | nil => cases hmem
  | cons e0 es ih =>
    unfold parse_pvc_entries
    rcases List.mem_cons.mp hmem with hhd | htl
    · subst hhd; rw [hbad]
    · cases hpe : parse_pvc_entry e0 with
      | none => rfl
      | some b => rw [ih htl]

/-- Claim C7: the `--persistent-volume-claims` resolver produces exactly
one claim-name/mount-path binding per comma-separated entry, in order,
each entry splitting on `:` into exactly the two non-empty components of
its binding; an entry that does not so split makes parsing fail. -/
theorem claim_C7_pvc_parsing :
    (∀ (s : String) (l : List (String × String)),
      parse_persistent_volume_claims s = some l →
      l.length = (split_chars ',' s.data).length
      ∧ ∀ pr ∈ (split_chars ',' s.data).zip l,
          split_chars ':' pr.1 = [pr.2.1.data, pr.2.2.data]
          ∧ pr.2.1 ≠ "" ∧ pr.2.2 ≠ "")
    ∧ (∀ (s : String) (e : List Char),
        e ∈ split_chars ',' s.data →
        parse_pvc_entry e = none →
        parse_persistent_volume_claims s = none) := by
  constructor
  · intro s l h
    obtain ⟨hlen, hmem⟩ := parse_pvc_entries_spec _ _ h
    refine ⟨hlen, ?_⟩
    intro pr hpr
    exact parse_pvc_entry_some pr.1 pr.2 (hmem pr hpr)
  · intro s e hmem hbad
    unfold parse_persistent_volume_claims
    rw [parse_pvc_entries_none _ e hmem hbad]

/-- Witness for C7: the test input `claim1:test1,claim2:test2` parses to
exactly the two bindings in order, and the malformed input
`claim1:test1,claim2` fails. -/
theorem claim_C7_pvc_parsing_witness :
    parse_persistent_volume_claims "claim1:test1,claim2:test2"
        = some [("claim1", "test1"), ("claim2", "test2")]
    ∧ [("claim1", "test1"), ("claim2", "test2")].length
        = (split_chars ',' "claim1:test1,claim2:test2".data).length
    ∧ split_chars ':' "claim1:test1".data = ["claim1".data, "test1".data]
    ∧ parse_persistent_volume_claims "claim1:test1,claim2" = none := by
  have h1 : parse_persistent_volume_claims "claim1:test1,claim2:test2"
      = some [("claim1", "test1"), ("claim2", "test2")] := by decide
  have h2 := claim_C7_pvc_parsing.1 "claim1:test1,claim2:test2"
    [("claim1", "test1"), ("claim2", "test2")] h1
  have h3 := claim_C7_pvc_parsing.2 "claim1:test1,claim2" "claim2".data
    (by decide) (by decide)
  exact ⟨h1, h2.1,
    (h2.2 ("claim1:test1".data, ("claim1", "test1")) (by decide)).1, h3⟩

/-- Claim C1: when a config-file path is present together with any other
flag whose source is the command line, `validate_only_config_file_argument`
fails with a `BadParameter` naming a conflicting command-line flag, and
`start_job` then exits 2 with no file or cluster I/O; with the config
file alone, or with no config file, the check returns without raising. -/
theorem claim_C1_config_file_exclusivity :
    ∀ (params : List (String × ParamSource)),
      ((∃ p ∈ params, p.1 = "config_file") →
        ∀ q ∈ params, q.1 ≠ "config_file" → q.2 = ParamSource.commandline →
        ∃ f, validate_only_config_file_argument params = .error f
          ∧ f ≠ "config_file" ∧ (f, ParamSource.commandline) ∈ params)
    ∧ ((∃ p ∈ params, p.1 = "config_file") →
        (∀ q ∈ params, q.1 = "config_file" ∨ q.2 ≠ ParamSource.commandline) →
        validate_only_config_file_argument params = .ok ())
    ∧ ((∀ p ∈ params, p.1 ≠ "config_file") →
        validate_only_config_file_argument params = .ok ())
    ∧ (∀ (i : StartJobInputs) (f : String),
        validate_only_config_file_argument i.params = .error f →
        start_job i = { exit_code := 2, err := some (.badParam f), events := [],
                        temp_file_exists := false }) := by
  intro params
  refine ⟨?_, ?_, ?_, ?_⟩
  · rintro ⟨p, hp, hp1⟩ q hq hq1 hq2
    have hany : params.any (fun r => r.1 == "config_file") = true :=
      List.any_eq_true.mpr ⟨p, hp, by simp [hp1]⟩
    cases hf : params.find?
        (fun r => !(r.1 == "config_file") && r.2 == ParamSource.commandline) with
    | none =>
      exfalso
      have := List.find?_eq_none.mp hf q hq
      simp [hq1, hq2] at this
    | some r =>
      have hr := List.find?_some hf
      have hrm := List.mem_of_find?_eq_some hf
      simp only [Bool.and_eq_true, Bool.not_eq_true', beq_eq_false_iff_ne, ne_eq,
        beq_iff_eq] at hr
      refine ⟨r.1, ?_, hr.1, ?_⟩
      · simp [validate_only_config_file_argument, hany, hf]
      · have hpr : (r.1, ParamSource.commandline) = r := by
          obtain ⟨r1, r2⟩ := r
          simp only at hr ⊢
          rw [hr.2]
        rw [hpr]; exact hrm
  · rintro ⟨p, hp, hp1⟩ hall
    have hany : params.any (fun r => r.1 == "config_file") = true :=
      List.any_eq_true.mpr ⟨p, hp, by simp [hp1]⟩
    have hf : params.find?
        (fun r => !(r.1 == "config_file") && r.2 == ParamSource.commandline) = none := by
      apply List.find?_eq_none.mpr
      intro x hx
      rcases hall x hx with h | h <;> simp [h]
    simp [validate_only_config_file_argument, hany, hf]
  · intro hnone
    have hany : params.any (fun r => r.1 == "config_file") = false := by
      apply List.any_eq_false.mpr
      intro x hx
      simp [hnone x hx]
    simp [validate_only_config_file_argument, hany]
  · intro i f h
    simp [start_job, h]

/-- Witness for C1: the conflicting pair of tests at concrete inputs —
`config_file` plus `other_arg` (both command line) raises naming
`other_arg`, `config_file` alone passes, no config file passes, and a
run whose provenance conflicts exits 2 with no events. -/
theorem claim_C1_config_file_exclusivity_witness :
    (∃ f, validate_only_config_file_argument
        [("config_file", ParamSource.commandline), ("other_arg", ParamSource.commandline)]
          = .error f
      ∧ f ≠ "config_file"
      ∧ (f, ParamSource.commandline)
          ∈ [("config_file", ParamSource.commandline), ("other_arg", ParamSource.commandline)])
    ∧ validate_only_config_file_argument [("config_file", ParamSource.commandline)] = .ok ()
    ∧ validate_only_config_file_argument [] = .ok ()
    ∧ start_job { sample_cli_inputs with
          params := [("config_file", ParamSource.commandline),
                     ("other_arg", ParamSource.commandline)] }
        = { exit_code := 2, err := some (.badParam "other_arg"), events := [],
            temp_file_exists := false } := by
  refine ⟨?_, ?_, ?_, ?_⟩
  · exact (claim_C1_config_file_exclusivity _).1
      ⟨("config_file", ParamSource.commandline), by simp, rfl⟩
      ("other_arg", ParamSource.commandline)
      (by simp) (by simp) rfl
  · exact (claim_C1_config_file_exclusivity _).2.1
      ⟨("config_file", ParamSource.commandline), by simp, rfl⟩
      (by intro q hq; simp at hq; simp [hq])
  · exact (claim_C1_config_file_exclusivity _).2.2.1 (by intro p hp; cases hp)
  · exact (claim_C1_config_file_exclusivity []).2.2.2 _ "other_arg" rfl

/-- Classification of the shared render/apply tail: a credentials
failure (no render), or a run with rendered temporary file whose exit
code and reported error are decided by the apply outcome alone. -/
theorem submit_common_outcome (i : StartJobInputs) (ev : List Event) :
    (i.valid_credentials = false
      ∧ submit_common i ev
          = { exit_code := 1, err := some .credentials, events := ev, temp_file_exists := false })
    ∨ (i.valid_credentials = true
      ∧ ((∃ m, i.apply_raises = some m
            ∧ (submit_common i ev).exit_code = 1
            ∧ (submit_common i ev).err = some (.applyFailure m))
        ∨ (i.apply_raises = none
            ∧ (submit_common i ev).exit_code = 0
            ∧ (submit_common i ev).err = none))) := by
  by_cases hcr : i.valid_credentials = true
  · refine Or.inr ⟨hcr, ?_⟩
    cases ha : i.apply_raises with
    | some m =>
      refine Or.inl ⟨m, rfl, ?_⟩
      by_cases hr : i.remove_raises = true <;> simp [submit_common, hcr, ha, hr]
    | none =>
      refine Or.inr ⟨rfl, ?_⟩
      by_cases hr : i.remove_raises = true <;> simp [submit_common, hcr, ha, hr]
  · simp only [Bool.not_eq_true] at hcr
    exact Or.inl ⟨hcr, by simp [submit_common, hcr]⟩

/-- Cleanup facts about the shared tail when credentials pass: the
temporary file is written, its removal is always attempted, success of
removal leaves no file, a removal failure is logged, and neither exit
code nor reported error depends on whether removal raised. -/
theorem submit_common_cleanup (i : StartJobInputs) (ev : List Event)
    (hcr : i.valid_credentials = true) :
    Event.temp_write ∈ (submit_common i ev).events
    ∧ Event.temp_remove ∈ (submit_common i ev).events
    ∧ (i.remove_raises = false → (submit_common i ev).temp_file_exists = false)
    ∧ (∀ m, i.apply_raises = some m →
        (submit_common i ev).exit_code = 1
        ∧ (submit_common i ev).err = some (SubmitError.applyFailure m))
    ∧ (i.remove_raises = true → Event.log_remove_failure ∈ (submit_common i ev).events)
    ∧ (submit_common i ev).exit_code
        = (submit_common { i with remove_raises := false } ev).exit_code
    ∧ (submit_common i ev).err
        = (submit_common { i with remove_raises := false } ev).err := by
  by_cases hr : i.remove_raises = true <;> cases ha : i.apply_raises <;>
    simp [submit_common, hcr, hr, ha]

/-- Every `start_job` run falls into one of the nine pipeline branches,
in pipeline order: usage error, config-file not found, config-file shape
error, config-file tail, label-selector error, queue/priority error,
persistent-volume-claims error, flag-validation error, CLI-flags tail. -/
theorem start_job_cases (i : StartJobInputs) :
    (∃ f, validate_only_config_file_argument i.params = .error f
      ∧ start_job i = { exit_code := 2, err := some (.badParam f), events := [],
                        temp_file_exists := false })
    ∨ (∃ path, i.config_file = some path
      ∧ i.existing_paths.contains (resolve_config_path i.base_dir path) = false
      ∧ start_job i = { exit_code := 1,
                        err := some (.configNotFound (resolve_config_path i.base_dir path)),
                        events := [], temp_file_exists := false })
    ∨ (∃ path, i.config_file = some path
      ∧ has_cluster_key i.config_parse = false
      ∧ start_job i = { exit_code := 1, err := some .templateValidation,
                        events := [Event.file_read (resolve_config_path i.base_dir path)],
                        temp_file_exists := false })
    ∨ (∃ path, i.config_file = some path
      ∧ start_job i = submit_common i [Event.file_read (resolve_config_path i.base_dir path)]
      ∧ start_job { i with remove_raises := false }
          = submit_common { i with remove_raises := false }
              [Event.file_read (resolve_config_path i.base_dir path)])
    ∨ (∃ parsed, i.config_file = none ∧ i.label_selector = some parsed
      ∧ validate_label_selector parsed = false
      ∧ start_job i = { exit_code := 1, err := some .labelSelector, events := [],
                        temp_file_exists := false })
    ∨ (i.config_file = none ∧ kueue_pair_valid i.queue_name i.priority = false
      ∧ start_job i = { exit_code := 1, err := some .kueuePair, events := [],
                        temp_file_exists := false })
    ∨ (∃ s, i.config_file = none ∧ i.persistent_volume_claims = some s
      ∧ parse_persistent_volume_claims s = none
      ∧ start_job i = { exit_code := 1, err := some .pvcFormat, events := [],
                        temp_file_exists := false })
    ∨ (i.config_file = none ∧ i.valid_args = false
      ∧ start_job i = { exit_code := 1, err := some .invalidArgs, events := [],
                        temp_file_exists := false })
    ∨ (i.config_file = none
      ∧ start_job i = submit_common i []
      ∧ start_job { i with remove_raises := false }
          = submit_common { i with remove_raises := false } []) := by
  cases hv : validate_only_config_file_argument i.params with
  | error f =>
    exact Or.inl ⟨f, rfl, by simp [start_job, hv]⟩
  | ok u =>
    cases u
    cases hc : i.config_file with
    | some path =>
      by_cases he : resolve_config_path i.base_dir path ∈ i.existing_paths
      · by_cases hk : has_cluster_key i.config_parse = true
        · refine Or.inr (Or.inr (Or.inr (Or.inl ⟨path, rfl, ?_, ?_⟩))) <;>
            simp [start_job, hv, hc, he, hk]
        · simp only [Bool.not_eq_true] at hk
          refine Or.inr (Or.inr (Or.inl ⟨path, rfl, hk, ?_⟩))
          simp [start_job, hv, hc, he, hk]
      · refine Or.inr (Or.inl ⟨path, rfl, by simp [he], ?_⟩)
        simp [start_job, hv, hc, he]
    | none =>
      by_cases hl : (match i.label_selector with
          | some parsed => !(validate_label_selector parsed)
          | none => false) = true
      · obtain ⟨parsed, hls, hbad⟩ : ∃ parsed, i.label_selector = some parsed
            ∧ validate_label_selector parsed = false := by
          cases hls : i.label_selector with
          | none => rw [hls] at hl; cases hl
          | some parsed =>
            rw [hls] at hl
            exact ⟨parsed, rfl, by simpa using hl⟩
        refine Or.inr (Or.inr (Or.inr (Or.inr (Or.inl ⟨parsed, rfl, hls, hbad, ?_⟩))))
        simp [start_job, hv, hc, hl]
      · by_cases hq : kueue_pair_valid i.queue_name i.priority = true
        · by_cases hp : (match i.persistent_volume_claims with
              | some s => (parse_persistent_volume_claims s).isNone
              | none => false) = true
          · obtain ⟨s, hpv, hnone⟩ : ∃ s, i.persistent_volume_claims = some s
                ∧ parse_persistent_volume_claims s = none := by
              cases hpv : i.persistent_volume_claims with
              | none => rw [hpv] at hp; cases hp
              | some s =>
                rw [hpv] at hp
                exact ⟨s, rfl, by simpa [Option.isNone_iff_eq_none] using hp⟩
            refine Or.inr (Or.inr (Or.inr (Or.inr (Or.inr (Or.inr
              (Or.inl ⟨s, rfl, hpv, hnone, ?_⟩))))))
            simp [start_job, hv, hc, hl, hq, hp]
          · by_cases hva : i.valid_args = true
            · refine Or.inr (Or.inr (Or.inr (Or.inr (Or.inr (Or.inr (Or.inr
                (Or.inr ⟨rfl, ?_, ?_⟩)))))))  <;>
                simp [start_job, hv, hc, hl, hq, hp, hva]
            · simp only [Bool.not_eq_true] at hva
              refine Or.inr (Or.inr (Or.inr (Or.inr (Or.inr (Or.inr (Or.inr
                (Or.inl ⟨rfl, hva, ?_⟩)))))))
              simp [start_job, hv, hc, hl, hq, hp, hva]
        · simp only [Bool.not_eq_true] at hq
          refine Or.inr (Or.inr (Or.inr (Or.inr (Or.inr (Or.inl ⟨rfl, hq, ?_⟩)))))
          simp [start_job, hv, hc, hl, hq]

/-- No error other than a credentials or apply failure can be reported
by the shared render/apply tail. -/
theorem submit_common_err_not (i : StartJobInputs) (ev : List Event) (e : SubmitError)
    (hcred : e ≠ SubmitError.credentials)
    (happ : ∀ m, e ≠ SubmitError.applyFailure m) :
    (submit_common i ev).err ≠ some e := by
  intro hcontra
  rcases submit_common_outcome i ev with ⟨hcr, heq⟩ | ⟨hcr, ⟨m, ha, hec, herr⟩ | ⟨ha, hec, herr⟩⟩
  · rw [heq] at hcontra
    simp only [Option.some.injEq] at hcontra
    exact hcred hcontra.symm
  · have h2 := herr.symm.trans hcontra
    simp only [Option.some.injEq] at h2
    exact happ m h2.symm
  · have h2 := herr.symm.trans hcontra
    cases h2

/-- Claim C2: once a run reaches the render step (a temporary manifest
is written), removal of the temporary file is attempted on every exit
path; when removal succeeds the file no longer exists; an apply-step
exception yields exit code 1 with the wrapped apply error; a removal
failure is logged and changes neither the exit code nor the reported
error. -/
theorem claim_C2_temp_file_cleanup :
    ∀ i : StartJobInputs,
      Event.temp_write ∈ (start_job i).events →
      Event.temp_remove ∈ (start_job i).events
      ∧ (i.remove_raises = false → (start_job i).temp_file_exists = false)
      ∧ (∀ m, i.apply_raises = some m →
          (start_job i).exit_code = 1
          ∧ (start_job i).err = some (SubmitError.applyFailure m))
      ∧ (i.remove_raises = true → Event.log_remove_failure ∈ (start_job i).events)
      ∧ (start_job i).exit_code = (start_job { i with remove_raises := false }).exit_code
      ∧ (start_job i).err = (start_job { i with remove_raises := false }).err := by
  intro i h
  have main : ∀ ev, Event.temp_write ∉ ev → start_job i = submit_common i ev →
      start_job { i with remove_raises := false }
        = submit_common { i with remove_raises := false } ev →
      Event.temp_remove ∈ (start_job i).events
      ∧ (i.remove_raises = false → (start_job i).temp_file_exists = false)
      ∧ (∀ m, i.apply_raises = some m →
          (start_job i).exit_code = 1
          ∧ (start_job i).err = some (SubmitError.applyFailure m))
      ∧ (i.remove_raises = true → Event.log_remove_failure ∈ (start_job i).events)
      ∧ (start_job i).exit_code = (start_job { i with remove_raises := false }).exit_code
      ∧ (start_job i).err = (start_job { i with remove_raises := false }).err := by
    intro ev hev hrun hrun2
    by_cases hcr : i.valid_credentials = true
    · have hcl := submit_common_cleanup i ev hcr
      rw [hrun, hrun2]
      exact hcl.2
    · exfalso
      simp only [Bool.not_eq_true] at hcr
      rw [hrun] at h
      simp only [submit_common, hcr, Bool.not_false, if_pos] at h
      exact hev h
  rcases start_job_cases i with
    ⟨f, hv, hrun⟩ | ⟨path, hcf, hex, hrun⟩ | ⟨path, hcf, hk, hrun⟩ |
    ⟨path, hcf, hrun, hrun2⟩ | ⟨parsed, hcf, hls, hbad, hrun⟩ | ⟨hcf, hq, hrun⟩ |
    ⟨s, hcf, hpv, hnone, hrun⟩ | ⟨hcf, hva, hrun⟩ | ⟨hcf, hrun, hrun2⟩
  · rw [hrun] at h; simp at h
  · rw [hrun] at h; simp at h
  · rw [hrun] at h; simp at h
  · exact main _ (by simp) hrun hrun2
  · rw [hrun] at h; simp at h
  · rw [hrun] at h; simp at h
  · rw [hrun] at h; simp at h
  · rw [hrun] at h; simp at h
  · exact main _ (by simp) hrun hrun2

/-- Witness for C2 at a concrete input: with the apply step raising
`submit job error` and removal succeeding, the manifest is written and
removed, no longer exists, and the command exits 1 with the wrapped
apply error. -/
theorem claim_C2_temp_file_cleanup_witness :
    Event.temp_write
      ∈ (start_job { sample_cli_inputs with apply_raises := some "submit job error" }).events
    ∧ Event.temp_remove
      ∈ (start_job { sample_cli_inputs with apply_raises := some "submit job error" }).events
    ∧ (start_job { sample_cli_inputs with
        apply_raises := some "submit job error" }).temp_file_exists = false
    ∧ (start_job { sample_cli_inputs with
        apply_raises := some "submit job error" }).exit_code = 1
    ∧ (start_job { sample_cli_inputs with apply_raises := some "submit job error" }).err
        = some (SubmitError.applyFailure "submit job error") := by
  have h := claim_C2_temp_file_cleanup
    { sample_cli_inputs with apply_raises := some "submit job error" } (by decide)
  exact ⟨by decide, h.1, h.2.1 rfl, (h.2.2.1 _ rfl).1, (h.2.2.1 _ rfl).2⟩

/-- Claim C3: a supplied label selector that did not parse as JSON, or
parsed to anything but a flat object of scalar values, makes `start_job`
exit 1 before any file or cluster I/O with no temporary manifest; a flat
string-to-scalar object never produces the label-selector failure. -/
theorem claim_C3_label_selector :
    (∀ (i : StartJobInputs) (parsed : Option JsonValue),
      validate_only_config_file_argument i.params = .ok () →
      i.config_file = none →
      i.label_selector = some parsed →
      validate_label_selector parsed = false →
      start_job i = { exit_code := 1, err := some .labelSelector, events := [],
                      temp_file_exists := false })
    ∧ validate_label_selector none = false
    ∧ (∀ fields, (∃ f ∈ fields, is_scalar_value f.2 = false) →
        validate_label_selector (some (.obj fields)) = false)
    ∧ (∀ fields, (∀ f ∈ fields, is_scalar_value f.2 = true) →
        validate_label_selector (some (.obj fields)) = true)
    ∧ (∀ (i : StartJobInputs) (parsed : JsonValue),
        i.label_selector = some (some parsed) →
        validate_label_selector (some parsed) = true →
        (start_job i).err ≠ some SubmitError.labelSelector) := by
  refine ⟨?_, rfl, ?_, ?_, ?_⟩
  · intro i parsed hv hc hls hbad
    simp [start_job, hv, hc, hls, hbad]
  · intro fields ⟨f, hf, hfs⟩
    simp only [validate_label_selector]
    exact List.all_eq_false.mpr ⟨f, hf, by simp [hfs]⟩
  · intro fields hall
    simp only [validate_label_selector]
    exact List.all_eq_true.mpr hall
  · intro i parsed hls hgood hcontra
    rcases start_job_cases i with
      ⟨f, hv, hrun⟩ | ⟨path, hcf, hex, hrun⟩ | ⟨path, hcf, hk, hrun⟩ |
      ⟨path, hcf, hrun, hrun2⟩ | ⟨parsed2, hcf, hls2, hbad, hrun⟩ | ⟨hcf, hq, hrun⟩ |
      ⟨s, hcf, hpv, hnone, hrun⟩ | ⟨hcf, hva, hrun⟩ | ⟨hcf, hrun, hrun2⟩
    · rw [hrun] at hcontra; simp at hcontra
    · rw [hrun] at hcontra; simp at hcontra
    · rw [hrun] at hcontra; simp at hcontra
    · rw [hrun] at hcontra
      exact submit_common_err_not i _ _ (by simp) (by simp) hcontra
    · have h2 := hls.symm.trans hls2
      simp only [Option.some.injEq] at h2
      rw [← h2] at hbad
      rw [hgood] at hbad
      cases hbad
    · rw [hrun] at hcontra; simp at hcontra
    · rw [hrun] at hcontra; simp at hcontra
    · rw [hrun] at hcontra; simp at hcontra
    · rw [hrun] at hcontra
      exact submit_common_err_not i _ _ (by simp) (by simp) hcontra

/-- Witness for C3 at concrete inputs: a non-JSON selector string fails
the run with exit 1 and no I/O; the nested object of the unit test is
rejected by the validator; the flat object is accepted and does not
produce the label-selector failure. -/
theorem claim_C3_label_selector_witness :
    start_job { sample_cli_inputs with label_selector := some none }
        = { exit_code := 1, err := some .labelSelector, events := [],
            temp_file_exists := false }
    ∧ validate_label_selector
        (some (.obj [("key1", .str "value1"),
                     ("key2", .obj [("key3", .str "value2")])])) = false
    ∧ validate_label_selector
        (some (.obj [("key1", .str "value1"), ("key2", .str "value2")])) = true
    ∧ (start_job { sample_cli_inputs with
          label_selector := some (some (.obj [("key1", .str "value1")])) }).err
        ≠ some SubmitError.labelSelector := by
  refine ⟨?_, ?_, ?_, ?_⟩
  · exact claim_C3_label_selector.1 _ none rfl rfl rfl rfl
  · exact claim_C3_label_selector.2.2.1 _
      ⟨("key2", .obj [("key3", .str "value2")]),
        List.mem_cons_of_mem _ (List.mem_cons_self _ _), rfl⟩
  · exact claim_C3_label_selector.2.2.2.1 _ (by decide)
  · exact claim_C3_label_selector.2.2.2.2 _ (.obj [("key1", .str "value1")]) rfl rfl

/-- Claim C4: on the CLI-flags path, supplying exactly one of
queue-name and priority fails validation with exit 1; supplying both,
with everything else valid, succeeds with exit 0. -/
theorem claim_C4_kueue_pairing :
    (∀ q, kueue_pair_valid (some q) none = false)
    ∧ (∀ p, kueue_pair_valid none (some p) = false)
    ∧ (∀ q p, kueue_pair_valid (some q) (some p) = true)
    ∧ kueue_pair_valid none none = true
    ∧ (∀ i : StartJobInputs,
        validate_only_config_file_argument i.params = .ok () →
        i.config_file = none →
        (∀ parsed, i.label_selector = some parsed → validate_label_selector parsed = true) →
        kueue_pair_valid i.queue_name i.priority = false →
        start_job i = { exit_code := 1, err := some .kueuePair, events := [],
                        temp_file_exists := false })
    ∧ (∀ (i : StartJobInputs) (q p : String),
        validate_only_config_file_argument i.params = .ok () →
        i.config_file = none →
        (∀ parsed, i.label_selector = some parsed → validate_label_selector parsed = true) →
        i.queue_name = some q → i.priority = some p →
        (∀ s, i.persistent_volume_claims = some s →
          ∃ l, parse_persistent_volume_claims s = some l) →
        i.valid_args = true → i.valid_credentials = true → i.apply_raises = none →
        (start_job i).exit_code = 0) := by
  refine ⟨fun q => rfl, fun p => rfl, fun q p => rfl, rfl, ?_, ?_⟩
  · intro i hv hc hlabel hkueue
    have hl : (match i.label_selector with
        | some parsed => !(validate_label_selector parsed)
        | none => false) = false := by
      cases hls : i.label_selector with
      | none => rfl
      | some parsed => simp [hlabel parsed hls]
    simp [start_job, hv, hc, hl, hkueue]
  · intro i q p hv hc hlabel hqn hpr hpvc hva hcr ha
    have hl : (match i.label_selector with
        | some parsed => !(validate_label_selector parsed)
        | none => false) = false := by
      cases hls : i.label_selector with
      | none => rfl
      | some parsed => simp [hlabel parsed hls]
    have hk : kueue_pair_valid i.queue_name i.priority = true := by
      rw [hqn, hpr]
      rfl
    have hp : (match i.persistent_volume_claims with
        | some s => (parse_persistent_volume_claims s).isNone
        | none => false) = false := by
      cases hpv : i.persistent_volume_claims with
      | none => rfl
      | some s =>
        obtain ⟨l, hl2⟩ := hpvc s hpv
        simp [hl2]
    have hrun : start_job i = submit_common i [] := by
      simp [start_job, hv, hc, hl, hk, hp, hva]
    rw [hrun]
    rcases submit_common_outcome i [] with ⟨hcr2, _⟩ | ⟨_, ⟨m, ha2, _, _⟩ | ⟨_, hec, _⟩⟩
    · rw [hcr] at hcr2; cases hcr2
    · rw [ha] at ha2; cases ha2
    · exact hec

/-- Witness for C4 at concrete inputs: queue name without priority fails
with exit 1, the queue/priority pair of the unit test plus otherwise-valid
flags succeeds with exit 0. -/
theorem claim_C4_kueue_pairing_witness :
    kueue_pair_valid (some "test-priority-queue") none = false
    ∧ start_job { sample_cli_inputs with queue_name := some "test-priority-queue" }
        = { exit_code := 1, err := some .kueuePair, events := [],
            temp_file_exists := false }
    ∧ (start_job { sample_cli_inputs with
          queue_name := some "test-priority-queue",
          priority := some "high-priority" }).exit_code = 0 := by
  refine ⟨claim_C4_kueue_pairing.1 _, ?_, ?_⟩
  · exact claim_C4_kueue_pairing.2.2.2.2.1 _ rfl rfl (fun parsed h => nomatch h) rfl
  · exact claim_C4_kueue_pairing.2.2.2.2.2 _ "test-priority-queue" "high-priority"
      rfl rfl (fun parsed h => nomatch h) rfl rfl (fun s h => nomatch h) rfl rfl rfl

/-- Claim C5: with only a config-file path supplied, a resolved path
absent from the filesystem fails the run with the distinguishable
config-not-found error, a non-zero exit code and no cluster or file
I/O; that failure occurs exactly when the resolved path does not exist
(existence is the sole criterion); a relative path resolves against the
fixed base directory. -/
theorem claim_C5_config_not_found :
    ∀ (i : StartJobInputs) (path : String),
      validate_only_config_file_argument i.params = .ok () →
      i.config_file = some path →
      ((resolve_config_path i.base_dir path ∉ i.existing_paths →
        start_job i = { exit_code := 1,
                        err := some (.configNotFound (resolve_config_path i.base_dir path)),
                        events := [], temp_file_exists := false })
      ∧ ((start_job i).err = some (.configNotFound (resolve_config_path i.base_dir path))
          ↔ resolve_config_path i.base_dir path ∉ i.existing_paths)
      ∧ (is_absolute path = false →
          resolve_config_path i.base_dir path = i.base_dir ++ "/" ++ path)) := by
  intro i path hv hc
  have hnotfound : resolve_config_path i.base_dir path ∉ i.existing_paths →
      start_job i = { exit_code := 1,
                      err := some (.configNotFound (resolve_config_path i.base_dir path)),
                      events := [], temp_file_exists := false } := by
    intro he
    simp [start_job, hv, hc, he]
  refine ⟨hnotfound, ⟨?_, fun he => by rw [hnotfound he]⟩, ?_⟩
  · intro herr
    by_contra he
    rcases start_job_cases i with
      ⟨f, hv2, hrun⟩ | ⟨path2, hcf, hex, hrun⟩ | ⟨path2, hcf, hk, hrun⟩ |
      ⟨path2, hcf, hrun, hrun2⟩ | ⟨parsed, hcf, hls, hbad, hrun⟩ | ⟨hcf, hq, hrun⟩ |
      ⟨s, hcf, hpv, hnone, hrun⟩ | ⟨hcf, hva, hrun⟩ | ⟨hcf, hrun, hrun2⟩
    · rw [hv] at hv2; cases hv2
    · have hp := (hc.symm.trans hcf)
      simp only [Option.some.injEq] at hp
      subst hp
      simp [he] at hex
    · rw [hrun] at herr; simp at herr
    · rw [hrun] at herr
      exact submit_common_err_not i _ _ (by simp) (by simp) herr
    · rw [hc] at hcf; cases hcf
    · rw [hc] at hcf; cases hcf
    · rw [hc] at hcf; cases hcf
    · rw [hc] at hcf; cases hcf
    · rw [hc] at hcf; cases hcf
  · intro hab
    simp [resolve_config_path, hab]

/-- Witness for C5 at concrete inputs: the absolute path of the unit
test is missing from the (empty) filesystem and produces exactly the
config-not-found outcome; a relative path resolves under the base
directory. -/
theorem claim_C5_config_not_found_witness :
    start_job { sample_cli_inputs with
        params := [("config_file", ParamSource.commandline)],
        config_file := some "/absolute/path/to/missing.yaml",
        existing_paths := [] }
      = { exit_code := 1,
          err := some (.configNotFound "/absolute/path/to/missing.yaml"),
          events := [], temp_file_exists := false }
    ∧ resolve_config_path "/opt/hyperpod" "file.yaml" = "/opt/hyperpod/file.yaml" := by
  constructor
  · exact (claim_C5_config_not_found
      { sample_cli_inputs with
        params := [("config_file", ParamSource.commandline)],
        config_file := some "/absolute/path/to/missing.yaml",
        existing_paths := [] }
      "/absolute/path/to/missing.yaml" rfl rfl).1 (fun h => nomatch h)
  · exact ((claim_C5_config_not_found
      { sample_cli_inputs with
        params := [("config_file", ParamSource.commandline)],
        config_file := some "file.yaml" }
      "file.yaml" rfl rfl).2.2 (by decide)).trans (by decide)

/-- Claim C6: at every command boundary, success exits 0, any
validation/credential/config/apply failure exits 1, CLI usage errors
exit 2, and a service-layer exception is reported with the stable
prefix; moreover every `start_job` run exits 0, 1 or 2, exiting 2
exactly for usage (`BadParameter`) errors and 0 exactly when no error
is reported. -/
theorem claim_C6_exit_codes :
    (∀ (cmd : CliCommand) (out : String),
      run_cli_command cmd (.success out) = (0, out))
    ∧ (∀ (cmd : CliCommand) (m : String),
        (run_cli_command cmd (.failure m)).1 = 1)
    ∧ (∀ (cmd : CliCommand) (m : String),
        (run_cli_command cmd (.usageError m)).1 = 2)
    ∧ (∀ (cmd : CliCommand) (m : String),
        (run_cli_command cmd (.serviceRaise m)).1 = 1
        ∧ ∃ rest, (run_cli_command cmd (.serviceRaise m)).2
            = "Unexpected error happens when trying to " ++ rest)
    ∧ (∀ i : StartJobInputs,
        ((start_job i).exit_code = 0 ∨ (start_job i).exit_code = 1
          ∨ (start_job i).exit_code = 2)
        ∧ ((start_job i).exit_code = 2 ↔ ∃ f, (start_job i).err = some (.badParam f))
        ∧ ((start_job i).exit_code = 0 ↔ (start_job i).err = none)) := by
  refine ⟨fun cmd out => rfl, fun cmd m => rfl, fun cmd m => rfl, ?_, ?_⟩
  · intro cmd m
    refine ⟨rfl, command_action_phrase cmd ++ ": " ++ m, ?_⟩
    simp [run_cli_command, String.append_assoc]
  · intro i
    rcases start_job_cases i with
      ⟨f, hv, hrun⟩ | ⟨path, hcf, hex, hrun⟩ | ⟨path, hcf, hk, hrun⟩ |
      ⟨path, hcf, hrun, hrun2⟩ | ⟨parsed, hcf, hls, hbad, hrun⟩ | ⟨hcf, hq, hrun⟩ |
      ⟨s, hcf, hpv, hnone, hrun⟩ | ⟨hcf, hva, hrun⟩ | ⟨hcf, hrun, hrun2⟩
    · rw [hrun]; simp
    · rw [hrun]; simp
    · rw [hrun]; simp
    · rw [hrun]
      rcases submit_common_outcome i _ with ⟨_, heq⟩ | ⟨_, ⟨m, _, hec, herr⟩ | ⟨_, hec, herr⟩⟩
      · rw [heq]; simp
      · rw [hec, herr]; simp
      · rw [hec, herr]; simp
    · rw [hrun]; simp
    · rw [hrun]; simp
    · rw [hrun]; simp
    · rw [hrun]; simp
    · rw [hrun]
      rcases submit_common_outcome i _ with ⟨_, heq⟩ | ⟨_, ⟨m, _, hec, herr⟩ | ⟨_, hec, herr⟩⟩
      · rw [heq]; simp
      · rw [hec, herr]; simp
      · rw [hec, herr]; simp

/-- Witness for C6 at concrete inputs: a raised service exception on
get-job exits 1 with the stable prefix and the underlying message, a
success exits 0, a usage error exits 2, and the reference valid
`start_job` run exits 0 with no error. -/
theorem claim_C6_exit_codes_witness :
    run_cli_command CliCommand.get_job (CmdOutcome.serviceRaise "Boom!")
        = (1, "Unexpected error happens when trying to get training job: Boom!")
    ∧ run_cli_command CliCommand.start_job_cmd (CmdOutcome.success "ok") = (0, "ok")
    ∧ (run_cli_command CliCommand.list_pods (CmdOutcome.usageError "Missing option")).1 = 2
    ∧ (start_job sample_cli_inputs).exit_code = 0
    ∧ (start_job sample_cli_inputs).err = none := by
  refine ⟨rfl, claim_C6_exit_codes.1 _ "ok", claim_C6_exit_codes.2.2.1 _ "Missing option",
    ?_, ?_⟩
  · exact (claim_C6_exit_codes.2.2.2.2 sample_cli_inputs).2.2.mpr (by decide)
  · decide
